import Mathlib

/-!
Shallow embedding of the keycap-generation pipeline of
`src/geometry.py` (class `KeycapGenerator`), over exact rationals.

The source builds, through `bmesh`, an indexed mesh: a list of 3-D
vertices and a list of quad faces (each a cyclic list of vertex
indices), assigns per-edge bevel weights, records the bevel-modifier
parameters, and optionally constructs a Cherry-MX stem cylinder.
Python floats are modelled as exact rationals; the bmesh vertex /
face creation order is reproduced exactly, so vertex indices and
face indices below match the source's creation order:
  vertices 0-3   base_outer, 4-7  top_outer,
           8-11  base_inner, 12-15 top_inner;
  faces: 0 top outer, 1-4 outer sides, 5 top inner (reversed),
         6-9 inner sides, 10-13 bottom rim.
-/

set_option maxRecDepth 100000

set_option maxHeartbeats 2000000

namespace Keycap

/-- A 3-D point with exact rational coordinates (millimetres). -/
structure Vec3 where
  x : ℚ
  y : ℚ
  z : ℚ
deriving DecidableEq, Repr

/-- Componentwise subtraction of 3-D vectors. -/
def vsub (a b : Vec3) : Vec3 := ⟨a.x - b.x, a.y - b.y, a.z - b.z⟩

/-- Cross product of 3-D vectors. -/
def cross (a b : Vec3) : Vec3 :=
  ⟨a.y * b.z - a.z * b.y, a.z * b.x - a.x * b.z, a.x * b.y - a.y * b.x⟩

/-- Squared Euclidean norm. -/
def normSq (a : Vec3) : ℚ := a.x * a.x + a.y * a.y + a.z * a.z

/-- Rational absolute value, computably. -/
def ratAbs (q : ℚ) : ℚ := if q < 0 then -q else q

/-- Profile-specific data computed by the `if profile_type == ...`
chain of `create_keycap` (src/geometry.py lines 55-68): the already
subtracted top width, the front taper, and the row-height table. -/
structure ProfileData where
  top_width : ℚ
  front_taper : ℚ
  row_heights : List (Int × ℚ)
deriving DecidableEq, Repr

/-- The `if profile_type == "CHERRY" ... elif ... elif "SA"` chain.
An unrecognized profile type leaves `top_width` / `row_heights`
unbound in the Python source, so the call fails there; this is
modelled as `none`. -/
def profileData (profile_type : String) (base_width : ℚ) : Option ProfileData :=
  if profile_type = "CHERRY" then
    some ⟨base_width - 5.5, 3.4, [(1, 11.5), (2, 9.5), (3, 8.5), (4, 9.5)]⟩
  else if profile_type = "OEM" then
    some ⟨base_width - 3.0, 3.0, [(1, 12.5), (2, 11.0), (3, 9.5), (4, 10.5)]⟩
  else if profile_type = "SA" then
    some ⟨base_width - 2.5, 2.5, [(1, 14.89), (2, 13.49), (3, 12.925), (4, 13.49)]⟩
  else none

/-- `row_heights.get(profile_row, row_heights[3])` (line 70): the
`.get` with default; key `3` is present in every table the source
defines, so the Python `row_heights[3]` indexing never fails there
(the `.getD 0` inner default is dead for every table of
`profileData`). -/
def keycapHeight (pd : ProfileData) (profile_row : Int) : ℚ :=
  (pd.row_heights.lookup profile_row).getD ((pd.row_heights.lookup 3).getD 0)

/-- The 16 shell vertices in bmesh creation order
(src/geometry.py lines 74-117). -/
def shellVertices (base_width base_height wall_thickness top_width
    front_taper keycap_height : ℚ) : List Vec3 :=
  let back_y := base_height / 2
  let front_y := base_height / 2 - front_taper
  let base_inner_width := base_width - wall_thickness * 2
  let base_inner_height := base_height - wall_thickness * 2
  let top_inner_width := top_width - wall_thickness * 2
  let front_inner_taper := front_taper
  let inner_top_z := keycap_height - wall_thickness
  let back_inner_y := base_inner_height / 2
  let front_inner_y := base_inner_height / 2 - front_inner_taper
  [⟨-base_width / 2, -base_height / 2, 0⟩,
   ⟨base_width / 2, -base_height / 2, 0⟩,
   ⟨base_width / 2, base_height / 2, 0⟩,
   ⟨-base_width / 2, base_height / 2, 0⟩,
   ⟨-top_width / 2, -back_y, keycap_height⟩,
   ⟨top_width / 2, -back_y, keycap_height⟩,
   ⟨top_width / 2, front_y, keycap_height⟩,
   ⟨-top_width / 2, front_y, keycap_height⟩,
   ⟨-base_inner_width / 2, -base_inner_height / 2, 0⟩,
   ⟨base_inner_width / 2, -base_inner_height / 2, 0⟩,
   ⟨base_inner_width / 2, base_inner_height / 2, 0⟩,
   ⟨-base_inner_width / 2, base_inner_height / 2, 0⟩,
   ⟨-top_inner_width / 2, -back_inner_y, inner_top_z⟩,
   ⟨top_inner_width / 2, -back_inner_y, inner_top_z⟩,
   ⟨top_inner_width / 2, front_inner_y, inner_top_z⟩,
   ⟨-top_inner_width / 2, front_inner_y, inner_top_z⟩]

/-- The faces existing right after the outer shell is built
(lines 121-128): top-outer quad then the 4 outer side quads.  The
corner-edge search of lines 137-147 runs at this stage. -/
def outerFaces : List (List Nat) :=
  [[4, 5, 6, 7]] ++
    (List.range 4).map (fun i => [i, (i + 1) % 4, 4 + (i + 1) % 4, 4 + i])

/-- All 14 shell faces in bmesh creation order (lines 121-175):
top outer, 4 outer sides, top inner reversed, 4 inner sides,
4 bottom-rim quads. -/
def shellFaces : List (List Nat) :=
  outerFaces ++
    ([[15, 14, 13, 12]] ++
      (List.range 4).map (fun i => [8 + i, 12 + i, 12 + (i + 1) % 4, 8 + (i + 1) % 4]) ++
      (List.range 4).map (fun i => [i, 8 + i, 8 + (i + 1) % 4, (i + 1) % 4]))

/-- The edges of a face: unordered pairs (min, max) of cyclically
consecutive vertex indices, as bmesh derives them from a quad. -/
def faceEdges (f : List Nat) : List (Nat × Nat) :=
  (f.zip (f.rotate 1)).map (fun p => (min p.1 p.2, max p.1 p.2))

/-- All distinct edges of a face list. -/
def allEdges (faces : List (List Nat)) : List (Nat × Nat) :=
  (((faces.map faceEdges).flatten)).dedup

/-- How many faces reference a given edge (bmesh `edge.link_faces`
cardinality). -/
def edgeFaceCount (faces : List (List Nat)) (e : Nat × Nat) : Nat :=
  (faces.filter (fun f => (faceEdges f).contains e)).length

/-- The edges incident to vertex `v` (bmesh `vert.link_edges`). -/
def linkEdges (faces : List (List Nat)) (v : Nat) : List (Nat × Nat) :=
  (allEdges faces).filter (fun e => e.1 == v || e.2 == v)

/-- The corner-edge search of lines 137-147: for each `i < 4`, walk
`base_outer[i].link_edges` (over the faces existing at that point,
`outerFaces`) and take the edge joining `base_outer[i]` to
`top_outer[i]`, i.e. vertex `i` to vertex `4+i`. -/
def cornerEdges : List (Nat × Nat) :=
  (List.range 4).filterMap (fun i =>
    (linkEdges outerFaces i).find? (fun e =>
      (e.1 == i && e.2 == 4 + i) || (e.2 == i && e.1 == 4 + i)))

/-- Vertex lookup with the out-of-range default never hit on the
index sets used here. -/
def getV (vs : List Vec3) (i : Nat) : Vec3 := vs.getD i ⟨0, 0, 0⟩

/-- Blender's quad-face normal (`normal_quad_v3`): the cross product
of the two diagonals, left unnormalized; the comparisons below are
phrased on squares so no square root is needed. -/
def quadNormal (vs : List Vec3) (f : List Nat) : Vec3 :=
  cross (vsub (getV vs (f.getD 0 0)) (getV vs (f.getD 2 0)))
        (vsub (getV vs (f.getD 1 0)) (getV vs (f.getD 3 0)))

/-- `abs(f.normal.z) > 0.9` on the normalized normal, expressed on
the unnormalized quad normal: `nz^2 * 100 > 81 * |n|^2`. -/
def normalZAbsGT09 (vs : List Vec3) (f : List Nat) : Bool :=
  let n := quadNormal vs f
  decide (n.z * n.z * 100 > 81 * normSq n)

/-- `abs(lf.normal.z) < 0.99` on the normalized normal, expressed on
the unnormalized quad normal: `nz^2 * 10000 < 9801 * |n|^2`. -/
def normalZAbsLT099 (vs : List Vec3) (f : List Nat) : Bool :=
  let n := quadNormal vs f
  decide (n.z * n.z * 10000 < 9801 * normSq n)

/-- Mean z-coordinate of a face's vertices (line 183). -/
def faceAvgZ (vs : List Vec3) (f : List Nat) : ℚ :=
  ((f.map (fun i => (getV vs i).z)).foldl (· + ·) 0) / (f.length : ℚ)

/-- The `top_faces` filter of lines 180-185: faces whose mean vertex
z is within 0.001 of the keycap height and whose normal is nearly
vertical. -/
def isTopFace (vs : List Vec3) (keycap_height : ℚ) (f : List Nat) : Bool :=
  decide (ratAbs (faceAvgZ vs f - keycap_height) < 1 / 1000) && normalZAbsGT09 vs f

/-- The rim-edge classification of lines 187-199: edges of the first
top face that are shared with a non-horizontal linked face. -/
def rimEdges (vs : List Vec3) (faces : List (List Nat)) (keycap_height : ℚ) :
    List (Nat × Nat) :=
  match (faces.filter (isTopFace vs keycap_height)).head? with
  | none => []
  | some tf =>
    (faceEdges tf).filter (fun e =>
      (faces.filter (fun lf => lf != tf && (faceEdges lf).contains e)).any
        (normalZAbsLT099 vs))

/-- The bevel-weight assignment accumulated by lines 137-147 (corner
edges, weight 1.0) and 187-199 (rim edges, weight 0.5), as an
association list keyed by unordered edge; edges absent from the list
have their weight unset. -/
def shellBevelWeights (vs : List Vec3) (keycap_height : ℚ) :
    List ((Nat × Nat) × ℚ) :=
  cornerEdges.map (fun e => (e, 1)) ++
    (rimEdges vs shellFaces keycap_height).map (fun e => (e, 0.5))

/-- The stem cylinder as dimensioned by `_add_cherry_stem`
(src/geometry.py lines 216-245): radius, tessellation, height,
centre location, and the cross-cutout prism dimensions.  The boolean
subtractions and the union are external Blender capabilities; the
claims about the stem concern only these dimensions. -/
structure Stem where
  radius : ℚ
  sides : Nat
  height : ℚ
  center : Vec3
  cross_length : ℚ
  cross_width : ℚ
deriving DecidableEq, Repr

/-- `_add_cherry_stem`'s dimensions: `stem_outer_radius = 5.6 / 2`,
`stem_height = keycap_height - 0.5`, 64 cylinder vertices, cylinder
location `(0, 0, stem_height / 2)` so it spans z in
`[0, stem_height]`. -/
def add_cherry_stem (keycap_height : ℚ) : Stem :=
  let stem_outer_radius : ℚ := 5.6 / 2
  let stem_height := keycap_height - 0.5
  { radius := stem_outer_radius
    sides := 64
    height := stem_height
    center := ⟨0, 0, stem_height / 2⟩
    cross_length := 4.15
    cross_width := 1.29 }

/-- Top z-coordinate of the stem cylinder. -/
def stemTopZ (st : Stem) : ℚ := st.center.z + st.height / 2

/-- The generated keycap object: mesh, edge bevel weights, the
bevel-modifier parameters set by `add_bevel_modifiers` (lines
15-25), and the optional stem. -/
structure KeycapObj where
  vertices : List Vec3
  faces : List (List Nat)
  bevelWeights : List ((Nat × Nat) × ℚ)
  bevelModWidth : ℚ
  bevelSegments : Nat
  bevelProfile : ℚ
  stem : Option Stem
deriving DecidableEq, Repr

/-- A default object, used only as the `Option.getD` fallback in
concrete witnesses. -/
def emptyKeycap : KeycapObj :=
  { vertices := [], faces := [], bevelWeights := [], bevelModWidth := 0
    bevelSegments := 0, bevelProfile := 0, stem := none }

/-- The keycap object built once the profile data is resolved: the
body of `create_keycap` after line 70 of src/geometry.py.
`scene_bevel_vertical` models the ambient
`bpy.context.scene.keycap_props.bevel_vertical` read by
`add_bevel_modifiers` (line 25); any `stem_type` other than
`"CHERRY_MX"` skips the stem step (lines 211-212). -/
def buildKeycap (width : ℚ) (profile_row : Int) (stem_type : String)
    (scene_bevel_vertical : ℚ) (pd : ProfileData) : KeycapObj :=
  let base_width := width * 18.0
  let base_height : ℚ := 18.0
  let wall_thickness : ℚ := 0.91
  let keycap_height := keycapHeight pd profile_row
  let verts := shellVertices base_width base_height wall_thickness
    pd.top_width pd.front_taper keycap_height
  { vertices := verts
    faces := shellFaces
    bevelWeights := shellBevelWeights verts keycap_height
    bevelModWidth := scene_bevel_vertical
    bevelSegments := 8
    bevelProfile := 0.64
    stem :=
      if stem_type = "CHERRY_MX" then some (add_cherry_stem keycap_height)
      else none }

/-- `KeycapGenerator.create_keycap` (src/geometry.py lines 28-214).
An unrecognized `profile_type` makes the Python body fail with an
unbound `row_heights` local, modelled as `none`; note the
`bevel_vertical` argument is read nowhere in the source body. -/
def create_keycap (width : ℚ) (profile_type : String) (profile_row : Int)
    (bevel_vertical : ℚ) (stem_type : String) (scene_bevel_vertical : ℚ) :
    Option KeycapObj :=
  (profileData profile_type (width * 18.0)).map
    (buildKeycap width profile_row stem_type scene_bevel_vertical)

/-- The width choices offered by the UI enum (src/properties.py). -/
def enumWidths : List ℚ := [1, 1.25, 1.5, 1.75, 2, 2.25, 2.75, 6, 6.25, 7]

/-- The profile families offered by the UI enum. -/
def enumProfiles : List String := ["CHERRY", "OEM", "SA"]

/-- The profile rows offered by the UI enum. -/
def enumRows : List Int := [1, 2, 3, 4]

/-- The tabulated top-width delta of each profile family (the amount
subtracted from `base_width` at lines 56, 61, 66). -/
def topWidthDelta (p : String) : ℚ :=
  if p = "CHERRY" then 5.5 else if p = "OEM" then 3.0 else 2.5

/-- The tabulated front taper of each profile family
(lines 57, 62, 67). -/
def frontTaperOf (p : String) : ℚ :=
  if p = "CHERRY" then 3.4 else if p = "OEM" then 3.0 else 2.5

/-- Checks the outer base and top rectangles of the generated shell:
base corners at x = plus-minus base_width/2, y = plus-minus 9, z = 0;
top corners at z = keycap height, x = plus-minus
(base_width - top_width_delta)/2, with the y = -9 edge unchanged and
the opposite edge pulled in to y = 9 - front_taper. -/
def C2check (w : ℚ) (p : String) (r : Int) (b : ℚ) (s : String) (sc : ℚ) : Bool :=
  match profileData p (w * 18.0), create_keycap w p r b s sc with
  | some pd, some kc =>
    let h := keycapHeight pd r
    let tw := w * 18.0 - topWidthDelta p
    decide (getV kc.vertices 0 = ⟨-(w * 18.0) / 2, -9, 0⟩) &&
    decide (getV kc.vertices 1 = ⟨w * 18.0 / 2, -9, 0⟩) &&
    decide (getV kc.vertices 2 = ⟨w * 18.0 / 2, 9, 0⟩) &&
    decide (getV kc.vertices 3 = ⟨-(w * 18.0) / 2, 9, 0⟩) &&
    decide (getV kc.vertices 4 = ⟨-tw / 2, -9, h⟩) &&
    decide (getV kc.vertices 5 = ⟨tw / 2, -9, h⟩) &&
    decide (getV kc.vertices 6 = ⟨tw / 2, 9 - frontTaperOf p, h⟩) &&
    decide (getV kc.vertices 7 = ⟨-tw / 2, 9 - frontTaperOf p, h⟩)
  | _, _ => false

/-- Checks the stem built for `stem_type = "CHERRY_MX"`: radius
2.8mm, 64 sides, centred on the z-axis, height and top at
`keycap_height - 0.5` (so the top protrudes `0.91 - 0.5 = 0.41` mm
above the inner top face at `keycap_height - 0.91`). -/
def C3check (w : ℚ) (p : String) (r : Int) (b sc : ℚ) : Bool :=
  match profileData p (w * 18.0), create_keycap w p r b "CHERRY_MX" sc with
  | some pd, some kc =>
    match kc.stem with
    | some st =>
      let h := keycapHeight pd r
      decide (st.radius = 2.8) && (st.sides == 64) &&
      decide (st.height = h - 0.5) &&
      decide (st.center = ⟨0, 0, (h - 0.5) / 2⟩) &&
      decide (stemTopZ st = h - 0.5) &&
      decide (stemTopZ st - (h - 0.91) = 0.91 - 0.5)
    | none => false
  | _, _ => false

/-- Checks the bevel-weight assignment of the generated shell:
weight 1.0 on exactly the four vertical corner edges
base_outer[i]-top_outer[i] (in creation order), weight 0.5 on at
most 4 edges all of which border the outer top face, every stored
weight is 1.0 or 0.5, and no edge is assigned twice (so every
remaining edge is unset). -/
def C4check (w : ℚ) (p : String) (r : Int) (b : ℚ) (s : String) (sc : ℚ) : Bool :=
  match create_keycap w p r b s sc with
  | some kc =>
    decide (((kc.bevelWeights.filter (fun pr => decide (pr.2 = 1))).map Prod.fst)
      = [(0, 4), (1, 5), (2, 6), (3, 7)]) &&
    decide (((kc.bevelWeights.filter (fun pr => decide (pr.2 = 0.5))).map Prod.fst).length ≤ 4) &&
    ((kc.bevelWeights.filter (fun pr => decide (pr.2 = 0.5))).map Prod.fst).all
      (fun e => (faceEdges [4, 5, 6, 7]).contains e) &&
    kc.bevelWeights.all (fun pr => decide (pr.2 = 1) || decide (pr.2 = 0.5)) &&
    decide ((kc.bevelWeights.map Prod.fst).Nodup)
  | none => false

/-- Checks the row-height tables through `keycapHeight` for the four
enumerated rows of each profile family. -/
def heightsCheckC5 : Bool :=
  decide (((profileData "CHERRY" 18).map (fun pd => enumRows.map (keycapHeight pd)))
    = some [11.5, 9.5, 8.5, 9.5]) &&
  decide (((profileData "OEM" 18).map (fun pd => enumRows.map (keycapHeight pd)))
    = some [12.5, 11.0, 9.5, 10.5]) &&
  decide (((profileData "SA" 18).map (fun pd => enumRows.map (keycapHeight pd)))
    = some [14.89, 13.49, 12.925, 13.49])

/-- The profile data of a 1U CHERRY keycap, used in concrete
witnesses. -/
def pdCherry : ProfileData := (profileData "CHERRY" (1 * 18.0)).getD ⟨0, 0, []⟩

/-- The keycap generated for a 1U CHERRY row-3 stemless call, used in
concrete witnesses. -/
def kcCherryNone : KeycapObj :=
  (create_keycap 1 "CHERRY" 3 1.5 "None" 2).getD emptyKeycap

/-- The keycap generated for a 1U CHERRY row-3 stemmed call, used in
concrete witnesses. -/
def kcCherryMX : KeycapObj :=
  (create_keycap 1 "CHERRY" 3 1.5 "CHERRY_MX" 2).getD emptyKeycap

/-- Helper: a lookup in a four-entry table keyed 1..4 misses for any
other integer key. -/
theorem lookup4_eq_none (r : ℤ) (h1 : r ≠ 1) (h2 : r ≠ 2) (h3 : r ≠ 3)
    (h4 : r ≠ 4) (a b c d : ℚ) :
    List.lookup r [((1 : ℤ), a), (2, b), (3, c), (4, d)] = none := by
  have e1 : (r == (1 : ℤ)) = false := beq_eq_false_iff_ne.mpr h1
  have e2 : (r == (2 : ℤ)) = false := beq_eq_false_iff_ne.mpr h2
  have e3 : (r == (3 : ℤ)) = false := beq_eq_false_iff_ne.mpr h3
  have e4 : (r == (4 : ℤ)) = false := beq_eq_false_iff_ne.mpr h4
  simp [List.lookup, e1, e2, e3, e4]

/-- C1 counterexample: at the valid input width 1U, CHERRY, row 3,
the bottom-outer-rectangle edge (0,1) of the generated shell is
referenced by exactly two faces (an outer side quad and a bottom-rim
quad), not by exactly one as the claim states. -/
theorem C1_counterexample :
    (create_keycap 1 "CHERRY" 3 1.5 "CHERRY_MX" 2).map
      (fun kc => edgeFaceCount kc.faces (0, 1)) = some 2 := by
  decide

/-- C1 (amended): for every input on which generation succeeds, the
shell mesh has exactly 16 vertices and 14 faces, and every edge is
referenced by exactly two faces: the bottom-rim quads close the ring
between the bottom-outer and inner-base rectangles, so no edge is
referenced exactly once. -/
theorem C1_shell_mesh :
    ∀ (w : ℚ) (p : String) (r : ℤ) (b : ℚ) (s : String) (sc : ℚ) (kc : KeycapObj),
    create_keycap w p r b s sc = some kc →
    kc.vertices.length = 16 ∧ kc.faces.length = 14 ∧
      ((allEdges kc.faces).all fun e => edgeFaceCount kc.faces e == 2) = true := by
  intro w p r b s sc kc hkc
  simp only [create_keycap, Option.map_eq_some'] at hkc
  obtain ⟨pd, hpd, rfl⟩ := hkc
  exact ⟨rfl, by with_unfolding_all rfl, by with_unfolding_all rfl⟩

/-- C1 witness: the amended statement instantiated at 1U CHERRY
row 3 with a Cherry-MX stem. -/
theorem C1_shell_mesh_witness :
    kcCherryMX.vertices.length = 16 ∧ kcCherryMX.faces.length = 14 ∧
      ((allEdges kcCherryMX.faces).all fun e => edgeFaceCount kcCherryMX.faces e == 2) = true :=
  C1_shell_mesh 1 "CHERRY" 3 1.5 "CHERRY_MX" 2 kcCherryMX (by rfl)

/-- C2 counterexample: at width 1U, CHERRY, row 3, no vertex of the
outer top rectangle lies at y = +base_depth/2 = 9 (the top y-values
are -9, -9, 5.6, 5.6), so the claimed unchanged back edge at +9 does
not exist: the code keeps the y = -9 edge and pulls in the +9 side. -/
theorem C2_counterexample :
    (create_keycap 1 "CHERRY" 3 1.5 "CHERRY_MX" 2).map
      (fun kc => ([4, 5, 6, 7].map fun i => (getV kc.vertices i).y).contains 9) =
      some false := by
  with_unfolding_all rfl

/-- C2 (amended): for every enumerated valid input and any bevel,
stem-type and scene arguments, the outer top rectangle lies at
z = keycap height with width base_width - top_width_delta; its edge
at y = -base_depth/2 is unchanged from the base rectangle, and the
opposite edge is pulled in by front_taper from +base_depth/2 to
base_depth/2 - front_taper: the taper is asymmetric, but it is the
+y edge that moves, not the -y edge the claim names. -/
theorem C2_top_rectangle :
    ∀ (b : ℚ) (s : String) (sc : ℚ),
    (enumWidths.all fun w => enumProfiles.all fun p => enumRows.all fun r =>
      C2check w p r b s sc) = true := by
  intro b s sc
  with_unfolding_all rfl

/-- C3 counterexample: at 1U CHERRY row 3 (keycap height 8.5,
wall thickness 0.91), the stem cylinder has height 8 and top at
z = 8, whereas the claim requires height `interior - 0.5 = 7.09` and
a top flush with the inner top face at z = 7.59. -/
theorem C3_counterexample :
    (create_keycap 1 "CHERRY" 3 1.5 "CHERRY_MX" 2).map
      (fun kc => kc.stem.map fun st => (st.height, stemTopZ st)) =
      some (some (8, 8)) ∧
    (8 : ℚ) ≠ 8.5 - 0.91 - 0.5 ∧ (8 : ℚ) ≠ 8.5 - 0.91 :=
  ⟨by with_unfolding_all rfl, by norm_num, by norm_num⟩

/-- C3 (amended): for every enumerated valid input with
stem_type = CHERRY_MX, the stem cylinder has radius 2.8mm, 64 sides,
is centred on the keycap's central axis, and has height
keycap_height - 0.5 (the full height, not the interior height, minus
0.5), spanning z in [0, keycap_height - 0.5]: its top is not flush
with the inner top face but protrudes 0.41mm (= wall_thickness - 0.5)
above it. -/
theorem C3_cherry_stem :
    ∀ (b sc : ℚ),
    (enumWidths.all fun w => enumProfiles.all fun p => enumRows.all fun r =>
      C3check w p r b sc) = true := by
  intro b sc
  with_unfolding_all rfl

/-- C4: for every enumerated valid input and any bevel, stem-type and
scene arguments, exactly the 4 vertical outer corner edges (vertex i
to vertex 4+i) carry bevel weight 1.0, at most 4 edges carry weight
0.5 and all of them border the outer top face, every stored weight is
1.0 or 0.5, and no edge is assigned twice, so all remaining edges are
unset. -/
theorem C4_bevel_weights :
    ∀ (b : ℚ) (s : String) (sc : ℚ),
    (enumWidths.all fun w => enumProfiles.all fun p => enumRows.all fun r =>
      C4check w p r b s sc) = true := by
  intro b s sc
  with_unfolding_all rfl

/-- C5: the profile lookup returns exactly the tabulated constants
(top-width delta and front taper for any base width, and the four row
heights of each family), and for any row outside 1..4 it falls back
to the row-3 height of the given profile. -/
theorem C5_profile_table :
    (∀ bw : ℚ,
      (profileData "CHERRY" bw).map (fun pd => (bw - pd.top_width, pd.front_taper))
        = some (5.5, 3.4) ∧
      (profileData "OEM" bw).map (fun pd => (bw - pd.top_width, pd.front_taper))
        = some (3.0, 3.0) ∧
      (profileData "SA" bw).map (fun pd => (bw - pd.top_width, pd.front_taper))
        = some (2.5, 2.5)) ∧
    heightsCheckC5 = true ∧
    ∀ r : ℤ, r ≠ 1 → r ≠ 2 → r ≠ 3 → r ≠ 4 →
      (profileData "CHERRY" 18).map (fun pd => keycapHeight pd r) = some 8.5 ∧
      (profileData "OEM" 18).map (fun pd => keycapHeight pd r) = some 9.5 ∧
      (profileData "SA" 18).map (fun pd => keycapHeight pd r) = some 12.925 := by
  refine ⟨?_, by with_unfolding_all rfl, ?_⟩
  · intro bw
    refine ⟨?_, ?_, ?_⟩ <;> simp [profileData, sub_sub_cancel]
  · intro r h1 h2 h3 h4
    refine ⟨?_, ?_, ?_⟩ <;>
      simp [profileData, keycapHeight, lookup4_eq_none r h1 h2 h3 h4] <;>
      with_unfolding_all rfl

/-- C5 witness: row 9 is outside 1..4 and falls back to the CHERRY
row-3 height 8.5. -/
theorem C5_profile_table_witness :
    (profileData "CHERRY" 18).map (fun pd => keycapHeight pd 9) = some 8.5 :=
  (C5_profile_table.2.2 9 (by decide) (by decide) (by decide) (by decide)).1

/-- C6: for every wall thickness and every choice of the remaining
shell parameters, the inner rectangles are exactly 2*wall_thickness
smaller than the outer ones on both the width (x) and depth (y) axes,
at both the base (vertices 0,1,2 vs 8,9,10) and the top (vertices
4,5,6 vs 12,13,14). -/
theorem C6_inner_offset :
    ∀ (bw bh wt tw ft kh : ℚ),
    ((getV (shellVertices bw bh wt tw ft kh) 1).x - (getV (shellVertices bw bh wt tw ft kh) 0).x)
        - ((getV (shellVertices bw bh wt tw ft kh) 9).x - (getV (shellVertices bw bh wt tw ft kh) 8).x)
      = 2 * wt ∧
    ((getV (shellVertices bw bh wt tw ft kh) 2).y - (getV (shellVertices bw bh wt tw ft kh) 1).y)
        - ((getV (shellVertices bw bh wt tw ft kh) 10).y - (getV (shellVertices bw bh wt tw ft kh) 9).y)
      = 2 * wt ∧
    ((getV (shellVertices bw bh wt tw ft kh) 5).x - (getV (shellVertices bw bh wt tw ft kh) 4).x)
        - ((getV (shellVertices bw bh wt tw ft kh) 13).x - (getV (shellVertices bw bh wt tw ft kh) 12).x)
      = 2 * wt ∧
    ((getV (shellVertices bw bh wt tw ft kh) 6).y - (getV (shellVertices bw bh wt tw ft kh) 5).y)
        - ((getV (shellVertices bw bh wt tw ft kh) 14).y - (getV (shellVertices bw bh wt tw ft kh) 13).y)
      = 2 * wt := by
  intro bw bh wt tw ft kh
  refine ⟨?_, ?_, ?_, ?_⟩ <;> · simp [shellVertices, getV]; ring

/-- C7 counterexample: at width 0.1 with profile CHERRY the computed
top width is 1.8 - 5.5 = -3.7, non-positive, yet construction
succeeds and returns a mesh: no DegenerateProfile failure occurs. -/
theorem C7_counterexample :
    (profileData "CHERRY" (0.1 * 18.0)).map (fun pd => decide (pd.top_width ≤ 0))
      = some true ∧
    (create_keycap 0.1 "CHERRY" 3 1.5 "CHERRY_MX" 2).isSome = true :=
  ⟨by with_unfolding_all rfl, by decide⟩

/-- C7 (amended): shell construction performs no degeneracy
validation at all: for every width (degenerate or not), every row and
any recognized profile family, generation succeeds; there is no
DegenerateProfile error in the code. -/
theorem C7_no_degeneracy_validation :
    ∀ (w : ℚ) (r : ℤ) (b : ℚ) (s : String) (sc : ℚ) (p : String),
    p ∈ enumProfiles → (create_keycap w p r b s sc).isSome = true := by
  intro w r b s sc p hp
  simp only [enumProfiles, List.mem_cons, List.not_mem_nil, or_false] at hp
  rcases hp with rfl | rfl | rfl <;> simp [create_keycap, profileData]

/-- C7 witness: the amended statement instantiated at the degenerate
width 0.1. -/
theorem C7_witness :
    (create_keycap 0.1 "CHERRY" 3 1.5 "CHERRY_MX" 2).isSome = true :=
  C7_no_degeneracy_validation 0.1 3 1.5 "CHERRY_MX" 2 "CHERRY" (by decide)

/-- C8: generation fails (the profile branch of the source leaves its
locals unbound, modelled as `none`) exactly when profile_type is
outside the enumerated set, and the row argument never affects
success. -/
theorem C8_invalid_profile :
    ∀ (w : ℚ) (p : String) (r : ℤ) (b : ℚ) (s : String) (sc : ℚ),
    (create_keycap w p r b s sc = none ↔ ¬(p = "CHERRY" ∨ p = "OEM" ∨ p = "SA")) ∧
    ∀ r2 : ℤ, (create_keycap w p r b s sc).isSome = (create_keycap w p r2 b s sc).isSome := by
  intro w p r b s sc
  constructor
  · by_cases h1 : p = "CHERRY" <;> by_cases h2 : p = "OEM" <;> by_cases h3 : p = "SA" <;>
      simp [create_keycap, profileData, h1, h2, h3]
  · intro r2
    cases h : profileData p (w * 18.0) <;> simp [create_keycap, h]

/-- C9: with stem_type "None" no stem is built and the boolean-union
step is skipped: the result is exactly the shell mesh with its bevel
weights and modifier settings, with `stem = none`. -/
theorem C9_stem_none_skips :
    ∀ (w : ℚ) (p : String) (r : ℤ) (b sc : ℚ) (pd : ProfileData) (kc : KeycapObj),
    profileData p (w * 18.0) = some pd →
    create_keycap w p r b "None" sc = some kc →
    kc.stem = none ∧
    kc.vertices = shellVertices (w * 18.0) 18.0 0.91 pd.top_width pd.front_taper
      (keycapHeight pd r) ∧
    kc.faces = shellFaces ∧
    kc.bevelWeights = shellBevelWeights kc.vertices (keycapHeight pd r) ∧
    kc.bevelModWidth = sc := by
  intro w p r b sc pd kc hpd hkc
  simp only [create_keycap, hpd, Option.map_some', Option.some.injEq] at hkc
  subst hkc
  exact ⟨rfl, rfl, rfl, rfl, rfl⟩

/-- C9 witness: the statement instantiated at 1U CHERRY row 3 with
stem_type "None". -/
theorem C9_stem_none_skips_witness :
    kcCherryNone.stem = none ∧
    kcCherryNone.vertices = shellVertices (1 * 18.0) 18.0 0.91 pdCherry.top_width
      pdCherry.front_taper (keycapHeight pdCherry 3) ∧
    kcCherryNone.faces = shellFaces ∧
    kcCherryNone.bevelWeights = shellBevelWeights kcCherryNone.vertices (keycapHeight pdCherry 3) ∧
    kcCherryNone.bevelModWidth = 2 :=
  C9_stem_none_skips 1 "CHERRY" 3 1.5 2 pdCherry kcCherryNone (by rfl) (by rfl)

/-- C10: the `bevel_vertical` argument of `create_keycap` has no
effect on the output (two calls differing only in it are equal), and
the recorded bevel-modifier width is the ambient scene property, not
the argument. -/
theorem C10_bevel_vertical_ignored :
    ∀ (w : ℚ) (p : String) (r : ℤ) (b1 b2 : ℚ) (s : String) (sc : ℚ),
    create_keycap w p r b1 s sc = create_keycap w p r b2 s sc ∧
    (create_keycap w p r b1 s sc).map KeycapObj.bevelModWidth
      = (profileData p (w * 18.0)).map (fun _ => sc) := by
  intro w p r b1 b2 s sc
  refine ⟨rfl, ?_⟩
  cases h : profileData p (w * 18.0) <;> simp [create_keycap, h, buildKeycap]

end Keycap
